import Mathlib

/-!
Verification of the backupstore utility core: the compression/checksum
pipeline, the timeout-bounded command executor, and the mount-point
reconciliation logic (package `util`, files `util.go`,
`util/compression/*`).

Bytes are modelled as `Nat` (with `< 256` bounds where a claim needs
them) and byte slices as `List Nat`.  External codec libraries
(`compress/gzip`, `pierrec/lz4`, `klauspost/zstd`) and the stdlib
`crypto/sha512` are capability providers outside this repository; they
are passed in as parameters (`Codec`, `sum512`), exactly as the code
treats them: opaque, already-correct transforms.  Everything the
repository itself does (dispatch, buffering, checksum truncation,
error construction, control flow) is translated from the source.
-/

/-- An external compression codec capability: `compress` writes the
whole input through the codec writer into a buffer; `decompress` reads
a compressed stream back ( `gzip.NewWriter` / `gzip.NewReader`,
`lz4.NewWriter` / `lz4.NewReader`, `zstd.NewWriter` / `zstd.NewReader`
in the Go code).  Decoding a malformed stream fails, hence `Except`. -/
structure Codec where
  compress : List Nat → List Nat
  decompress : List Nat → Except String (List Nat)

namespace gzip

/-- `const AlgoName = "gzip"` in `util/compression/gzip`. -/
def AlgoName : String := "gzip"

end gzip

namespace zstd

/-- `const AlgoName = "zstd"` in `util/compression/zstd`. -/
def AlgoName : String := "zstd"

end zstd

namespace lz4

/-- `const AlgoName = "lz4"` in `util/compression/lz4`. -/
def AlgoName : String := "lz4"

end lz4

/-- The codec registry `var Compressors = map[string]Compressor{...}`
of package `util/compression`, keyed by each package's `AlgoName`.
The three codec implementations wrap external libraries, so they are
parameters here. -/
def Compressors (g z l : Codec) : List (String × Codec) :=
  [(gzip.AlgoName, g), (zstd.AlgoName, z), (lz4.AlgoName, l)]

/-- `const PreservedChecksumLength = 64` in `util.go`. -/
def PreservedChecksumLength : Nat := 64

/-- The lookup table `hextable = "0123456789abcdef"` used by Go's
`encoding/hex`. -/
def hextable : List Char := "0123456789abcdef".data

/-- One byte to two hex characters: `dst[0] = hextable[v>>4]`,
`dst[1] = hextable[v&0x0f]`. -/
def hexByte (b : Nat) : List Char :=
  [hextable.getD (b / 16) '0', hextable.getD (b % 16) '0']

/-- `hex.EncodeToString`: every input byte becomes two lowercase hex
characters. -/
def hexEncodeToString (bs : List Nat) : String :=
  String.mk (bs.flatMap hexByte)

/-- `GetChecksum` from `util.go`: hex-encode the SHA-512 digest of the
data and keep the first `PreservedChecksumLength` characters
(`hex.EncodeToString(checksumBytes[:])[:PreservedChecksumLength]`; the
hex string is ASCII so Go's byte slicing is character truncation).
`sum512` is the external `sha512.Sum512`, a fixed 64-byte digest. -/
def GetChecksum (sum512 : List Nat → List Nat) (data : List Nat) : String :=
  String.mk ((hexEncodeToString (sum512 data)).data.take PreservedChecksumLength)

/-- `newCompressionWriter` from `util.go`: a switch over the method
name returning the codec's writer, or an unsupported-method error. -/
def newCompressionWriter (g l : Codec) (method : String) :
    Except String (List Nat → List Nat) :=
  if method = "gzip" then .ok g.compress
  else if method = "lz4" then .ok l.compress
  else .error ("unsupported compression method: " ++ method)

/-- `newDecompressionReader` from `util.go`: `"none"` is a passthrough
reader (`ioutil.NopCloser(r)`), otherwise the codec's reader, or an
unsupported-method error. -/
def newDecompressionReader (g l : Codec) (method : String) :
    Except String (List Nat → Except String (List Nat)) :=
  if method = "none" then .ok (fun src => .ok src)
  else if method = "gzip" then .ok g.decompress
  else if method = "lz4" then .ok l.decompress
  else .error ("unsupported decompression method: " ++ method)

/-- Effect markers used to make "performs no partial work" provable:
`transformBytes` marks the codec write/read stage running over the
payload, `computeChecksum` marks a `GetChecksum` evaluation. -/
inductive PipelineStep where
  | transformBytes
  | computeChecksum
deriving DecidableEq

/-- `CompressData` from `util.go`, instrumented with the effect trace:
`"none"` returns a reader over the data unchanged; otherwise resolve
the writer (failing before touching the data) and stream the data
through it. -/
def CompressDataTr (g l : Codec) (method : String) (data : List Nat) :
    Except String (List Nat) × List PipelineStep :=
  if method = "none" then (.ok data, [])
  else
    match newCompressionWriter g l method with
    | .error e => (.error e, [])
    | .ok w => (.ok (w data), [.transformBytes])

/-- `CompressData` from `util.go` (the value the caller sees). -/
def CompressData (g l : Codec) (method : String) (data : List Nat) :
    Except String (List Nat) :=
  (CompressDataTr g l method data).1

/-- `DecompressAndVerify` from `util.go`, instrumented with the effect
trace: resolve the reader (failing before touching the stream), read
the whole block, compare `GetChecksum(block)` with the expected
checksum, and return a reader over the verified block. -/
def DecompressAndVerifyTr (g l : Codec) (sum512 : List Nat → List Nat)
    (method : String) (src : List Nat) (checksum : String) :
    Except String (List Nat) × List PipelineStep :=
  match newDecompressionReader g l method with
  | .error e => (.error e, [])
  | .ok r =>
    match r src with
    | .error e => (.error e, [.transformBytes])
    | .ok block =>
      if GetChecksum sum512 block ≠ checksum then
        (.error "checksum verification failed for block",
          [.transformBytes, .computeChecksum])
      else
        (.ok block, [.transformBytes, .computeChecksum])

/-- `DecompressAndVerify` from `util.go` (the value the caller sees). -/
def DecompressAndVerify (g l : Codec) (sum512 : List Nat → List Nat)
    (method : String) (src : List Nat) (checksum : String) :
    Except String (List Nat) :=
  (DecompressAndVerifyTr g l sum512 method src checksum).1

/-- The identity codec, used to instantiate codec parameters at
concrete inputs. -/
def idCodec : Codec := ⟨fun d => d, fun d => .ok d⟩

/-- Rendering of a Go error by the `%v` verb inside `fmt.Errorf`: a
nil error prints as `<nil>`, otherwise its message. -/
def fmtGoErr : Option String → String
  | none => "<nil>"
  | some e => e

/-- Rendering of a `[]string` argument list by the `%v` verb:
space-separated elements in square brackets. -/
def fmtGoArgs (args : List String) : String :=
  "[" ++ String.intercalate " " args ++ "]"

/-- The message built by
`fmt.Errorf("timeout executing: %v %v, output %v, error %v", binary, args, string(output), err)`
on the timeout branch of `execute`. -/
def timeoutErrMsg (binary : String) (args : List String)
    (output : String) (err : Option String) : String :=
  "timeout executing: " ++ binary ++ " " ++ fmtGoArgs args ++
    ", output " ++ output ++ ", error " ++ fmtGoErr err

/-- The message built by
`fmt.Errorf("failed to execute: %v %v, output %v, error %v", binary, args, string(output), err)`
on the failure branch of `execute`. -/
def execErrMsg (binary : String) (args : List String)
    (output : String) (err : Option String) : String :=
  "failed to execute: " ++ binary ++ " " ++ fmtGoArgs args ++
    ", output " ++ output ++ ", error " ++ fmtGoErr err

/-- Outcome of the race in `execute` between the collector goroutine
(`cmd.CombinedOutput()` then `close(done)`) and the context deadline:
either the deadline fires first, with whatever `output`/`err` the
goroutine has produced so far, or the goroutine finishes first with
the process's combined output and its error (non-zero exit or spawn
failure). -/
inductive ExecOutcome where
  | timedOut (output : String) (err : Option String)
  | completed (output : String) (err : Option String)

/-- `execute` from `util.go`, as a function of the race outcome: on
timeout return `("", timeout error)`; on completion with a process
error return `("", execution error)`; otherwise return the output. -/
def execute (binary : String) (args : List String) (outcome : ExecOutcome) :
    String × Option String :=
  match outcome with
  | .timedOut output err =>
    ("", some (timeoutErrMsg binary args output err))
  | .completed output err =>
    match err with
    | some e => ("", some (execErrMsg binary args output (some e)))
    | none => (output, none)

/-- Substring test `strings.Contains(s, sub)` (Go: sub occurs inside
s; the empty string occurs in every string). -/
def goContains (s sub : String) : Bool :=
  decide (sub.data <:+: s.data)

/-- `strings.Split` with a one-character separator: splits around each
occurrence of the separator; the empty input yields one empty field. -/
def goSplit (s : List Char) (sep : Char) : List (List Char) :=
  match s with
  | [] => [[]]
  | c :: rest =>
    let r := goSplit rest sep
    if c = sep then [] :: r
    else
      match r with
      | h :: t => (c :: h) :: t
      | [] => [[c]]

/-- `IsMounted` from `util.go`, as a function of the result of
`Execute("mount", []string{})`: on any execution error return false;
otherwise split the output on newlines and look for a line containing
`" " + mountPoint + " "`. -/
def IsMounted (mountPoint : String) (execResult : String × Option String) : Bool :=
  match execResult with
  | (_, some _) => false
  | (output, none) =>
    (goSplit output.data (Char.ofNat 10)).any
      (fun line => decide ((" " ++ mountPoint ++ " ").data <:+: line))

/-- The environment `CheckAndCleanupMountPoint` runs against:
`probeMounted`/`probeErr` are the two results of
`mounter.IsMountPoint(mountDir)`, `getMountResult` is
`fs.GetMount(mountDir)` reduced to the `FilesystemType` field the code
reads (or its error), and `cleanupErr i` is the error of the i-th
invocation of `cleanupMount` during this call (none = success). -/
structure MountEnv where
  probeMounted : Bool
  probeErr : Option String
  getMountResult : Except String String
  cleanupErr : Nat → Option String

/-- Result of `CheckAndCleanupMountPoint`: the returned boolean and
error, plus an instrumentation count of how many times `cleanupMount`
was invoked. -/
structure MountResult where
  mounted : Bool
  err : Option String
  cleanupCalls : Nat
deriving DecidableEq

/-- `errors.Wrapf(err, msg)` from pkg/errors: wrapping a nil error
yields nil; otherwise the message is prepended to the cause. -/
def wrapf (err : Option String) (msg : String) : Option String :=
  match err with
  | none => none
  | some e => some (msg ++ ": " ++ e)

/-- The tail of `CheckAndCleanupMountPoint` after the probe-error
block: `if !mounted` return `(false, nil)`; fetch the mount and wrap
its error; if the live `FilesystemType` contains `Kind` return
`(true, nil)`; otherwise clean up — on cleanup failure the code
returns `true` and `errors.Wrapf(err, ...)` where `err` is the
`fs.GetMount` error, which is nil on this path, so the wrap is nil —
and on cleanup success return `(false, nil)`.  `calls` counts cleanup
invocations made so far. -/
def checkMountRest (Kind mountDir : String) (env : MountEnv)
    (mounted : Bool) (calls : Nat) : MountResult :=
  if !mounted then ⟨false, none, calls⟩
  else
    match env.getMountResult with
    | .error gerr =>
      ⟨true, wrapf (some gerr) ("Failed to get mount for " ++ mountDir), calls⟩
    | .ok fsType =>
      if goContains fsType Kind then ⟨true, none, calls⟩
      else
        match env.cleanupErr calls with
        | some _ =>
          ⟨true, wrapf none ("Failed to unmount mountpoint " ++ fsType ++
            " (" ++ mountDir ++ ") for " ++ Kind ++ " protocol"), calls + 1⟩
        | none => ⟨false, none, calls + 1⟩

/-- `CheckAndCleanupMountPoint` from `util.go`: probe the mount point;
if the probe errs, attempt cleanup — on cleanup failure return `true`
and the probe error wrapped with context, on cleanup success fall
through to the normal path with the probe's boolean — and otherwise
run the normal path directly. -/
def CheckAndCleanupMountPoint (Kind mountDir : String) (env : MountEnv) :
    MountResult :=
  match env.probeErr with
  | some perr =>
    match env.cleanupErr 0 with
    | some _ =>
      ⟨true, wrapf (some perr)
        ("Failed to unmount corrupted mountpoint " ++ mountDir), 1⟩
    | none => checkMountRest Kind mountDir env env.probeMounted 1
  | none => checkMountRest Kind mountDir env env.probeMounted 0

/-- A concrete stand-in for the external digest at witness inputs: a
constant 64-byte digest. -/
def constDigest : List Nat → List Nat := fun _ => List.replicate 64 0

theorem hextable_getD_mem (n : Nat) : hextable.getD n '0' ∈ hextable := by
  rcases h : hextable[n]? with _ | c
  · simp only [List.getD_eq_getElem?_getD, h, Option.getD_none]
    decide
  · have hc : c ∈ hextable := List.getElem?_mem h
    simp [List.getD_eq_getElem?_getD, h, hc]

theorem hexEncode_data_length (bs : List Nat) :
    (bs.flatMap hexByte).length = 2 * bs.length := by
  induction bs with
  | nil => simp
  | cons b t ih => simp [List.flatMap_cons, ih, hexByte, Nat.mul_succ]

/-- Claim C8: for every input (the empty slice included), `GetChecksum`
returns exactly 64 characters, all lowercase hexadecimal digits, and it
is the 64-character truncation of the 128-character hex encoding of the
full SHA-512 digest (`sum512` is the external digest: 64 bytes for
every input). -/
theorem getChecksum_shape (sum512 : List Nat → List Nat) (data : List Nat)
    (hlen : (sum512 data).length = 64) :
    (GetChecksum sum512 data).length = 64 ∧
    (∀ c ∈ (GetChecksum sum512 data).data, c ∈ hextable) ∧
    (hexEncodeToString (sum512 data)).length = 128 ∧
    GetChecksum sum512 data =
      String.mk ((hexEncodeToString (sum512 data)).data.take PreservedChecksumLength) := by
  refine ⟨?_, ?_, ?_, rfl⟩
  · show ((((sum512 data).flatMap hexByte)).take PreservedChecksumLength).length = 64
    rw [List.length_take, hexEncode_data_length, hlen]
    norm_num [PreservedChecksumLength]
  · intro c hc
    have hc2 : c ∈ (sum512 data).flatMap hexByte := List.mem_of_mem_take hc
    rcases List.mem_flatMap.mp hc2 with ⟨b, _, hcb⟩
    simp only [hexByte, List.mem_cons, List.mem_singleton] at hcb
    rcases hcb with rfl | rfl | h
    · exact hextable_getD_mem _
    · exact hextable_getD_mem _
    · exact absurd h (List.not_mem_nil c)
  · show ((sum512 data).flatMap hexByte).length = 128
    rw [hexEncode_data_length, hlen]

/-- Witness for `getChecksum_shape` at a concrete digest and the empty
input. -/
theorem getChecksum_shape_witness :
    (constDigest []).length = 64 ∧
    ((GetChecksum constDigest []).length = 64 ∧
      (∀ c ∈ (GetChecksum constDigest []).data, c ∈ hextable) ∧
      (hexEncodeToString (constDigest [])).length = 128 ∧
      GetChecksum constDigest [] =
        String.mk ((hexEncodeToString (constDigest [])).data.take PreservedChecksumLength)) :=
  ⟨by simp [constDigest], getChecksum_shape constDigest [] (by simp [constDigest])⟩

/-- Claim C7: for every method outside the supported set, both
`CompressData` and `DecompressAndVerify` fail with the
unsupported-method error and perform no work at all: the effect trace
is empty, so no bytes were transformed and no checksum was computed
before the error was returned. -/
theorem unsupported_method_no_partial_work (g l : Codec)
    (sum512 : List Nat → List Nat) (method : String)
    (data src : List Nat) (checksum : String)
    (h : method ∉ ["none", "gzip", "lz4"]) :
    CompressDataTr g l method data =
      (.error ("unsupported compression method: " ++ method), []) ∧
    DecompressAndVerifyTr g l sum512 method src checksum =
      (.error ("unsupported decompression method: " ++ method), []) := by
  have h0 : method ≠ "none" := fun e => h (by simp [e])
  have h1 : method ≠ "gzip" := fun e => h (by simp [e])
  have h2 : method ≠ "lz4" := fun e => h (by simp [e])
  constructor
  · simp [CompressDataTr, newCompressionWriter, h0, h1, h2]
  · simp [DecompressAndVerifyTr, newDecompressionReader, h0, h1, h2]

/-- Witness for `unsupported_method_no_partial_work` at the method name
`"bogus"`. -/
theorem unsupported_method_no_partial_work_witness :
    "bogus" ∉ (["none", "gzip", "lz4"] : List String) ∧
    (CompressDataTr idCodec idCodec "bogus" [0] =
        (.error ("unsupported compression method: " ++ "bogus"), []) ∧
      DecompressAndVerifyTr idCodec idCodec constDigest "bogus" [0] "x" =
        (.error ("unsupported decompression method: " ++ "bogus"), [])) :=
  ⟨by decide,
    unsupported_method_no_partial_work idCodec idCodec constDigest "bogus"
      [0] [0] "x" (by decide)⟩

/-- Claim C4 counterexample: `"zstd"` is one of the registered
algorithm names, yet the pipeline rejects it in both directions with
an unsupported-method error. -/
theorem zstd_rejected_counterexample :
    zstd.AlgoName ∈ (Compressors idCodec idCodec idCodec).map Prod.fst ∧
    CompressData idCodec idCodec "zstd" [0] =
      .error "unsupported compression method: zstd" ∧
    DecompressAndVerify idCodec idCodec constDigest "zstd" [0] "x" =
      .error "unsupported decompression method: zstd" := by
  refine ⟨by simp [Compressors, zstd.AlgoName, gzip.AlgoName, lz4.AlgoName], rfl, rfl⟩

/-- Claim C4 (amended): the pipeline accepts exactly `"none"`,
`"gzip"` and `"lz4"` — each resolves a codec in both directions and
never produces an unsupported-method failure — while `"zstd"`, though
registered in the compression registry, is rejected by both
directions. -/
theorem pipeline_accepted_methods (g l : Codec) (data : List Nat) :
    (∃ out, CompressData g l "none" data = .ok out) ∧
    (∃ out, CompressData g l "gzip" data = .ok out) ∧
    (∃ out, CompressData g l "lz4" data = .ok out) ∧
    (∃ r, newDecompressionReader g l "none" = .ok r) ∧
    (∃ r, newDecompressionReader g l "gzip" = .ok r) ∧
    (∃ r, newDecompressionReader g l "lz4" = .ok r) ∧
    CompressData g l "zstd" data =
      .error "unsupported compression method: zstd" ∧
    newDecompressionReader g l "zstd" =
      .error "unsupported decompression method: zstd" := by
  refine ⟨⟨data, rfl⟩, ⟨g.compress data, ?_⟩, ⟨l.compress data, ?_⟩,
    ⟨_, rfl⟩, ⟨_, rfl⟩, ⟨_, rfl⟩, ?_, rfl⟩
  · simp [CompressData, CompressDataTr, newCompressionWriter]
  · simp [CompressData, CompressDataTr, newCompressionWriter]
  · simp [CompressData, CompressDataTr, newCompressionWriter]

/-- Claim C1 counterexample: `"zstd"` is a registered algorithm name,
but `CompressData` fails on it outright, so the round-trip cannot even
start, let alone succeed, for every registered algorithm. -/
theorem roundtrip_zstd_counterexample :
    zstd.AlgoName ∈ (Compressors idCodec idCodec idCodec).map Prod.fst ∧
    CompressData idCodec idCodec zstd.AlgoName [1, 2] =
      .error "unsupported compression method: zstd" := by
  refine ⟨by simp [Compressors, zstd.AlgoName, gzip.AlgoName, lz4.AlgoName], rfl⟩

/-- Claim C1 (amended): for `"none"` and for the registered algorithms
the pipeline actually supports (`"gzip"` and `"lz4"`),
`DecompressAndVerify(method, CompressData(method, data), GetChecksum(data))`
succeeds and returns exactly `data`, for any codecs whose decompression
inverts their compression. -/
theorem roundtrip_supported (g l : Codec) (sum512 : List Nat → List Nat)
    (method : String) (data : List Nat)
    (hg : ∀ d, g.decompress (g.compress d) = .ok d)
    (hl : ∀ d, l.decompress (l.compress d) = .ok d)
    (hm : method = "none" ∨ method = "gzip" ∨ method = "lz4") :
    ∃ compressed,
      CompressData g l method data = .ok compressed ∧
      DecompressAndVerify g l sum512 method compressed
        (GetChecksum sum512 data) = .ok data := by
  rcases hm with rfl | rfl | rfl
  · refine ⟨data, rfl, ?_⟩
    simp [DecompressAndVerify, DecompressAndVerifyTr, newDecompressionReader]
  · refine ⟨g.compress data, by simp [CompressData, CompressDataTr, newCompressionWriter], ?_⟩
    simp [DecompressAndVerify, DecompressAndVerifyTr, newDecompressionReader, hg data]
  · refine ⟨l.compress data, by simp [CompressData, CompressDataTr, newCompressionWriter], ?_⟩
    simp [DecompressAndVerify, DecompressAndVerifyTr, newDecompressionReader, hl data]

/-- Witness for `roundtrip_supported` at the identity codec, a concrete
digest, method `"gzip"` and a three-byte input. -/
theorem roundtrip_supported_witness :
    (∀ d, idCodec.decompress (idCodec.compress d) = .ok d) ∧
    ("gzip" = "none" ∨ "gzip" = "gzip" ∨ "gzip" = "lz4") ∧
    (∃ compressed,
      CompressData idCodec idCodec "gzip" [1, 2, 3] = .ok compressed ∧
      DecompressAndVerify idCodec idCodec constDigest "gzip" compressed
        (GetChecksum constDigest [1, 2, 3]) = .ok [1, 2, 3]) :=
  ⟨fun _ => rfl, Or.inr (Or.inl rfl),
    roundtrip_supported idCodec idCodec constDigest "gzip" [1, 2, 3]
      (fun _ => rfl) (fun _ => rfl) (Or.inr (Or.inl rfl))⟩

/-- Claim C5: the executor produces exactly two error kinds and never
merges them.  When the deadline fires first it returns a timeout error
whose message carries the command line (binary and argument list) and
the output captured so far; when the process completes with an error
(non-zero exit or spawn failure) it returns an execution error whose
message carries the command line, the captured output and the
underlying cause; and no timeout-error message ever equals any
execution-error message. -/
theorem execute_two_error_kinds (binary : String) (args : List String)
    (output : String) (err : Option String) (cause : String) :
    execute binary args (.timedOut output err) =
      ("", some (timeoutErrMsg binary args output err)) ∧
    execute binary args (.completed output (some cause)) =
      ("", some (execErrMsg binary args output (some cause))) ∧
    (∃ s t, timeoutErrMsg binary args output err = s ++ binary ++ t) ∧
    (∃ s t, timeoutErrMsg binary args output err = s ++ output ++ t) ∧
    (∃ s t, execErrMsg binary args output (some cause) = s ++ binary ++ t) ∧
    (∃ s t, execErrMsg binary args output (some cause) = s ++ output ++ t) ∧
    (∃ s, execErrMsg binary args output (some cause) = s ++ cause) ∧
    (∀ b2 a2 o2 e2, timeoutErrMsg binary args output err ≠ execErrMsg b2 a2 o2 e2) := by
  refine ⟨rfl, rfl, ?_, ?_, ?_, ?_, ?_, ?_⟩
  · exact ⟨"timeout executing: ",
      " " ++ fmtGoArgs args ++ ", output " ++ output ++ ", error " ++ fmtGoErr err,
      by simp [timeoutErrMsg, String.append_assoc]⟩
  · exact ⟨"timeout executing: " ++ binary ++ " " ++ fmtGoArgs args ++ ", output ",
      ", error " ++ fmtGoErr err,
      by simp [timeoutErrMsg, String.append_assoc]⟩
  · exact ⟨"failed to execute: ",
      " " ++ fmtGoArgs args ++ ", output " ++ output ++ ", error " ++ fmtGoErr (some cause),
      by simp [execErrMsg, String.append_assoc]⟩
  · exact ⟨"failed to execute: " ++ binary ++ " " ++ fmtGoArgs args ++ ", output ",
      ", error " ++ fmtGoErr (some cause),
      by simp [execErrMsg, String.append_assoc]⟩
  · exact ⟨"failed to execute: " ++ binary ++ " " ++ fmtGoArgs args ++ ", output " ++
      output ++ ", error ",
      by simp [execErrMsg, fmtGoErr, String.append_assoc]⟩
  · intro b2 a2 o2 e2 h
    have hd := congrArg String.data h
    simp only [timeoutErrMsg, execErrMsg, String.data_append, List.append_assoc] at hd
    have hpre := (List.append_inj hd (by decide)).1
    exact absurd hpre (by decide)

/-- Claim C9: on every error path (timeout or execution failure) the
executor returns the empty string as its output value; captured output
only travels inside the error message. -/
theorem execute_error_empty_output (binary : String) (args : List String)
    (outcome : ExecOutcome) (h : (execute binary args outcome).2 ≠ none) :
    (execute binary args outcome).1 = "" := by
  match outcome with
  | .timedOut o e => rfl
  | .completed o none => exact absurd rfl h
  | .completed o (some c) => rfl

/-- Witness for `execute_error_empty_output` at a concrete timed-out
invocation. -/
theorem execute_error_empty_output_witness :
    (execute "mount" [] (.timedOut "partial" none)).2 ≠ none ∧
    (execute "mount" [] (.timedOut "partial" none)).1 = "" :=
  ⟨by simp [execute], execute_error_empty_output "mount" []
    (.timedOut "partial" none) (by simp [execute])⟩

/-- Claim C10: whenever `Execute("mount", ...)` fails — with either
error kind — `IsMounted` returns false, the same value it returns when
the command succeeds and its output lists no mount at the path, so a
probe-tooling failure is indistinguishable from "not mounted". -/
theorem isMounted_false_on_exec_error (mountPoint output e : String) :
    IsMounted mountPoint (output, some e) = false ∧
    IsMounted mountPoint ("", none) = false := by
  constructor
  · rfl
  · show ((goSplit "".data (Char.ofNat 10)).any
      (fun line => decide ((" " ++ mountPoint ++ " ").data <:+: line))) = false
    simp [goSplit, String.data_append]

/-- Claim C6: the three case-wise postconditions of
`CheckAndCleanupMountPoint`: a successful probe reporting not mounted
returns `(false, nil)` with no cleanup invocation; a successful probe
reporting mounted with the expected kind occurring in the live
filesystem type returns `(true, nil)` with no cleanup invocation; a
successful probe reporting mounted with a mismatched kind invokes
cleanup exactly once. -/
theorem checkAndCleanup_cases (Kind mountDir fsType : String) (env : MountEnv) :
    (env.probeErr = none → env.probeMounted = false →
      CheckAndCleanupMountPoint Kind mountDir env = ⟨false, none, 0⟩) ∧
    (env.probeErr = none → env.probeMounted = true →
      env.getMountResult = .ok fsType → goContains fsType Kind = true →
      CheckAndCleanupMountPoint Kind mountDir env = ⟨true, none, 0⟩) ∧
    (env.probeErr = none → env.probeMounted = true →
      env.getMountResult = .ok fsType → goContains fsType Kind = false →
      (CheckAndCleanupMountPoint Kind mountDir env).cleanupCalls = 1) := by
  refine ⟨?_, ?_, ?_⟩
  · intro h1 h2
    simp [CheckAndCleanupMountPoint, checkMountRest, h1, h2]
  · intro h1 h2 h3 h4
    simp [CheckAndCleanupMountPoint, checkMountRest, h1, h2, h3, h4]
  · intro h1 h2 h3 h4
    simp only [CheckAndCleanupMountPoint, h1]
    simp only [checkMountRest, h2, h3, h4]
    cases h5 : env.cleanupErr 0 <;> simp [h5]

/-- Environment: probe succeeds, path not mounted. -/
def envNotMounted : MountEnv := ⟨false, none, .ok "nfs4", fun _ => none⟩

/-- Environment: probe succeeds, mounted, live type matches. -/
def envHealthy : MountEnv := ⟨true, none, .ok "nfs4", fun _ => none⟩

/-- Environment: probe succeeds, mounted, live type mismatched,
cleanup succeeds. -/
def envStale : MountEnv := ⟨true, none, .ok "ext4", fun _ => none⟩

/-- Witness for `checkAndCleanup_cases`: each of the three cases at a
concrete environment. -/
theorem checkAndCleanup_cases_witness :
    CheckAndCleanupMountPoint "nfs" "/mnt/backupstore" envNotMounted =
      ⟨false, none, 0⟩ ∧
    CheckAndCleanupMountPoint "nfs" "/mnt/backupstore" envHealthy =
      ⟨true, none, 0⟩ ∧
    (CheckAndCleanupMountPoint "nfs" "/mnt/backupstore" envStale).cleanupCalls = 1 :=
  ⟨(checkAndCleanup_cases "nfs" "/mnt/backupstore" "nfs4" envNotMounted).1 rfl rfl,
   (checkAndCleanup_cases "nfs" "/mnt/backupstore" "nfs4" envHealthy).2.1
     rfl rfl rfl (by decide),
   (checkAndCleanup_cases "nfs" "/mnt/backupstore" "ext4" envStale).2.2
     rfl rfl rfl (by decide)⟩

/-- Environment: probe succeeds, mounted, live type mismatched, the
cleanup attempt fails. -/
def envStaleCleanupFails : MountEnv :=
  ⟨true, none, .ok "ext4", fun _ => some "device busy"⟩

/-- Claim C2 counterexample: mounted with mismatched type and a failing
cleanup, the call returns `(true, nil)` — not `false`, and with no
error: the code wraps the nil `fs.GetMount` error instead of the
cleanup error, and `errors.Wrapf` of nil is nil. -/
theorem stale_cleanup_failure_counterexample :
    envStaleCleanupFails.cleanupErr 0 = some "device busy" ∧
    CheckAndCleanupMountPoint "nfs" "/mnt/backupstore" envStaleCleanupFails =
      ⟨true, none, 1⟩ := ⟨rfl, rfl⟩

/-- Claim C2 (amended): when the probe reports mounted, the live
filesystem type does not contain the expected kind and the cleanup
attempt fails, the call returns `true` together with a nil error: the
cleanup failure is only logged, because the returned value wraps the
`fs.GetMount` error, which is nil on this path. -/
theorem stale_cleanup_failure_returns_nil_error (Kind mountDir fsType cerr : String)
    (env : MountEnv)
    (h1 : env.probeErr = none) (h2 : env.probeMounted = true)
    (h3 : env.getMountResult = .ok fsType) (h4 : goContains fsType Kind = false)
    (h5 : env.cleanupErr 0 = some cerr) :
    CheckAndCleanupMountPoint Kind mountDir env = ⟨true, none, 1⟩ := by
  simp [CheckAndCleanupMountPoint, checkMountRest, h1, h2, h3, h4, h5, wrapf]

/-- Witness for `stale_cleanup_failure_returns_nil_error` at a concrete
environment. -/
theorem stale_cleanup_failure_returns_nil_error_witness :
    envStaleCleanupFails.probeErr = none ∧
    envStaleCleanupFails.probeMounted = true ∧
    envStaleCleanupFails.getMountResult = .ok "ext4" ∧
    goContains "ext4" "nfs" = false ∧
    envStaleCleanupFails.cleanupErr 0 = some "device busy" ∧
    CheckAndCleanupMountPoint "nfs" "/mnt/backupstore" envStaleCleanupFails =
      ⟨true, none, 1⟩ :=
  ⟨rfl, rfl, rfl, by decide, rfl,
    stale_cleanup_failure_returns_nil_error "nfs" "/mnt/backupstore" "ext4"
      "device busy" envStaleCleanupFails rfl rfl rfl (by decide) rfl⟩

/-- Environment: the probe itself errs, the best-effort cleanup
succeeds. -/
def envProbeErrCleanupOk : MountEnv :=
  ⟨false, some "mount table corrupted", .ok "ext4", fun _ => none⟩

/-- Environment: the probe itself errs, the best-effort cleanup also
fails. -/
def envProbeErrCleanupFails : MountEnv :=
  ⟨false, some "mount table corrupted", .ok "ext4", fun _ => some "target busy"⟩

/-- Claim C3 counterexample: the probe errs and the best-effort cleanup
succeeds; the call returns `(false, nil)` — no error wrapping the probe
failure is surfaced, refuting "regardless of whether that cleanup
succeeds or fails". -/
theorem probe_error_swallowed_counterexample :
    envProbeErrCleanupOk.probeErr = some "mount table corrupted" ∧
    CheckAndCleanupMountPoint "nfs" "/mnt/backupstore" envProbeErrCleanupOk =
      ⟨false, none, 1⟩ := ⟨rfl, rfl⟩

/-- Claim C3 (amended): when the probe errs, a cleanup is attempted;
if the cleanup fails, the call returns a non-nil error wrapping the
original probe error as the cause (the cleanup failure is only logged
and never replaces it); if the cleanup succeeds, the probe error is
not surfaced — processing continues with the probe's mounted flag,
returning `(false, nil)` when it reported not mounted. -/
theorem probe_error_paths (Kind mountDir perr : String) (env : MountEnv)
    (h1 : env.probeErr = some perr) :
    (∀ cerr, env.cleanupErr 0 = some cerr →
      CheckAndCleanupMountPoint Kind mountDir env =
        ⟨true, some ("Failed to unmount corrupted mountpoint " ++ mountDir ++
          ": " ++ perr), 1⟩) ∧
    (env.cleanupErr 0 = none →
      CheckAndCleanupMountPoint Kind mountDir env =
        checkMountRest Kind mountDir env env.probeMounted 1) ∧
    (env.cleanupErr 0 = none → env.probeMounted = false →
      CheckAndCleanupMountPoint Kind mountDir env = ⟨false, none, 1⟩) := by
  refine ⟨?_, ?_, ?_⟩
  · intro cerr h2
    simp [CheckAndCleanupMountPoint, h1, h2, wrapf]
  · intro h2
    simp [CheckAndCleanupMountPoint, h1, h2]
  · intro h2 h3
    simp [CheckAndCleanupMountPoint, checkMountRest, h1, h2, h3]

/-- Witness for `probe_error_paths` at two concrete environments, one
whose cleanup fails and one whose cleanup succeeds. -/
theorem probe_error_paths_witness :
    (envProbeErrCleanupFails.probeErr = some "mount table corrupted" ∧
      envProbeErrCleanupFails.cleanupErr 0 = some "target busy" ∧
      CheckAndCleanupMountPoint "nfs" "/mnt/backupstore" envProbeErrCleanupFails =
        ⟨true, some ("Failed to unmount corrupted mountpoint " ++ "/mnt/backupstore" ++
          ": " ++ "mount table corrupted"), 1⟩) ∧
    (envProbeErrCleanupOk.probeErr = some "mount table corrupted" ∧
      envProbeErrCleanupOk.cleanupErr 0 = none ∧
      envProbeErrCleanupOk.probeMounted = false ∧
      CheckAndCleanupMountPoint "nfs" "/mnt/backupstore" envProbeErrCleanupOk =
        ⟨false, none, 1⟩) :=
  ⟨⟨rfl, rfl,
    (probe_error_paths "nfs" "/mnt/backupstore" "mount table corrupted"
      envProbeErrCleanupFails rfl).1 "target busy" rfl⟩,
   ⟨rfl, rfl, rfl,
    (probe_error_paths "nfs" "/mnt/backupstore" "mount table corrupted"
      envProbeErrCleanupOk rfl).2.2 rfl rfl⟩⟩

/-- Witness for `execute_two_error_kinds` at a concrete command,
including one concrete instance of the never-merged conjunct. -/
theorem execute_two_error_kinds_witness :
    execute "mount" ["-l"] (.timedOut "partial" none) =
      ("", some (timeoutErrMsg "mount" ["-l"] "partial" none)) ∧
    execute "mount" ["-l"] (.completed "partial" (some "exit status 32")) =
      ("", some (execErrMsg "mount" ["-l"] "partial" (some "exit status 32"))) ∧
    timeoutErrMsg "mount" ["-l"] "partial" none ≠
      execErrMsg "mount" ["-l"] "partial" (some "exit status 32") := by
  obtain ⟨a, b, -, -, -, -, -, h⟩ :=
    execute_two_error_kinds "mount" ["-l"] "partial" none "exit status 32"
  exact ⟨a, b, h "mount" ["-l"] "partial" (some "exit status 32")⟩
